import Mathlib

/-!
# Verification of the movie-scraper crawl core

Shallow embedding of the crawl frontier, extraction pipeline, relation
ingestion, repair pass and crawl controller of the scraper service
(`ScraperService`, `src/unnamed/part_001`, first document), together with
proofs of the testable properties stated in the design document.

Modelling conventions:
* The `waiting_list` table (`WaitingList` entity: unique `movie_uid`,
  bigint `priority`) is modelled as a list of `WLEntry` rows; the result
  set of a `find` ordered by `priority DESC` is modelled as a sort of the
  row list (stable insertion sort), and removing the fetched entities
  leaves the remaining rows.
* `Date.now()` timestamps are modelled as a `Nat` clock threaded through
  the loops and advanced at every enqueue, so priorities come from a
  monotonically increasing source, exactly as in the service.
* JavaScript numbers produced by `parseInt` / `parseFloat` are modelled as
  `Option Int` / `Option Rat`, where `none` stands for `NaN` (the value
  `parseInt` and `parseFloat` return on non-numeric text).
* The Selenium document is modelled as a record of the locator results the
  extractor reads (`FilmDoc`); `none` for a locator means the
  `findElement` / `getAttribute` call failed, which in the service raises
  and is caught by the per-field `try`.
* The external pages are modelled by a `World`: listing pages, film pages,
  reviewer lists and review pages; a `none` page is a navigation failure,
  which the service surfaces as a thrown error.
-/

/-- A row of the `waiting_list` table: `movie_uid` (unique) and the
`bigint` priority assigned at enqueue time from `Date.now()`. -/
structure WLEntry where
  movieId : String
  priority : Nat
deriving DecidableEq

/-- Does a live row with this `movie_uid` exist in the waiting list?
Mirrors `waitingListRepository.findOne({ where: { movieId } })`. -/
def frontierHasId (wl : List WLEntry) (movieId : String) : Bool :=
  wl.any (fun e => e.movieId == movieId)

/-- `pushToWaitingList` (service lines 913-945): look the id up first; if a
live row exists, return without inserting (logged no-op); otherwise insert
a fresh row whose priority is the current clock value (`Date.now()`).
Duplicate-key races are swallowed by the service and cannot occur in this
sequential model. -/
def pushToWaitingList (wl : List WLEntry) (now : Nat) (movieId : String) :
    List WLEntry :=
  if frontierHasId wl movieId then wl
  else wl ++ [⟨movieId, now⟩]

/-- Descending-priority comparison used by `ORDER BY priority DESC`. -/
def prioGe (a b : WLEntry) : Prop :=
  b.priority ≤ a.priority

instance : DecidableRel prioGe :=
  fun a b => Nat.decLe b.priority a.priority

instance : IsTotal WLEntry prioGe :=
  ⟨fun a b => by unfold prioGe; exact Nat.le_total b.priority a.priority⟩

instance : IsTrans WLEntry prioGe :=
  ⟨fun _ _ _ hab hbc => by unfold prioGe at *; exact Nat.le_trans hbc hab⟩

/-- The waiting-list rows ordered by `priority DESC` (stable). -/
def sortByPrioDesc (wl : List WLEntry) : List WLEntry :=
  List.insertionSort prioGe wl

/-- `popBatchFromWaitingList` (service lines 951-973): fetch the
`batchSize` rows of highest priority in descending order, delete exactly
those rows, and return their ids.  The first component is the returned
batch of ids, the second the remaining waiting-list rows. -/
def popBatchFromWaitingList (wl : List WLEntry) (batchSize : Nat) :
    List String × List WLEntry :=
  let sorted := sortByPrioDesc wl
  ((sorted.take batchSize).map (fun e => e.movieId), sorted.drop batchSize)

/-- `popFromWaitingList` (service lines 975-994): fetch and delete the
single row of highest priority, if any. -/
def popFromWaitingList (wl : List WLEntry) : Option String × List WLEntry :=
  match sortByPrioDesc wl with
  | [] => (none, wl)
  | e :: rest => (some e.movieId, rest)

/-- `getWaitingListSize`: `count()` over the table. -/
def getWaitingListSize (wl : List WLEntry) : Nat :=
  wl.length

/-- Number of live rows carrying a given id. -/
def liveCount (wl : List WLEntry) (movieId : String) : Nat :=
  (wl.filter (fun e => e.movieId == movieId)).length

theorem frontierHasId_append_single (wl : List WLEntry) (e : WLEntry)
    (id : String) :
    frontierHasId (wl ++ [e]) id = (frontierHasId wl id || e.movieId == id) := by
  simp [frontierHasId, List.any_append]

theorem liveCount_eq_zero_of_not_hasId (wl : List WLEntry) (id : String)
    (h : frontierHasId wl id = false) : liveCount wl id = 0 := by
  unfold frontierHasId at h
  unfold liveCount
  rw [List.length_eq_zero, List.filter_eq_nil_iff]
  intro e he
  simp only [List.any_eq_false] at h
  simpa using h e he

theorem liveCount_append_single (wl : List WLEntry) (e : WLEntry)
    (id : String) :
    liveCount (wl ++ [e]) id =
      liveCount wl id + (if e.movieId = id then 1 else 0) := by
  unfold liveCount
  rw [List.filter_append, List.length_append]
  by_cases hid : e.movieId = id
  · simp [List.filter, beq_iff_eq, hid]
  · have hb : (e.movieId == id) = false := by
      simpa using hid
    simp [List.filter, hb, hid]

theorem liveCount_le_one_push (wl : List WLEntry) (now : Nat) (id id' : String)
    (h : liveCount wl id' ≤ 1) :
    liveCount (pushToWaitingList wl now id) id' ≤ 1 := by
  unfold pushToWaitingList
  cases hmem : frontierHasId wl id with
  | true => simpa using h
  | false =>
    simp only [Bool.false_eq_true, if_false]
    rw [liveCount_append_single]
    by_cases hid : id = id'
    · subst hid
      have hz := liveCount_eq_zero_of_not_hasId wl id hmem
      simp [hz]
    · simp only [hid, if_false]
      omega

theorem frontierHasId_push_self (wl : List WLEntry) (t : Nat) (id : String) :
    frontierHasId (pushToWaitingList wl t id) id = true := by
  unfold pushToWaitingList
  cases hmem : frontierHasId wl id with
  | true => simpa using hmem
  | false =>
    simp only [Bool.false_eq_true, if_false]
    rw [frontierHasId_append_single, hmem]
    simp

theorem push_noop_of_hasId (wl : List WLEntry) (t : Nat) (id : String)
    (h : frontierHasId wl id = true) : pushToWaitingList wl t id = wl := by
  unfold pushToWaitingList
  simp [h]

theorem push_insert_of_not_hasId (wl : List WLEntry) (t : Nat) (id : String)
    (h : frontierHasId wl id = false) :
    pushToWaitingList wl t id = wl ++ [⟨id, t⟩] := by
  unfold pushToWaitingList
  simp [h]

/-- C1: `pushToWaitingList` inserts a fresh row if and only if no live row
with the id exists, is otherwise a no-op, never errors; a second push of
the same id is always a no-op, so pushing a not-yet-queued id twice grows
the frontier by exactly one row, and the at-most-one-live-row-per-id
invariant is preserved. -/
theorem claim_C1_push_idempotent (wl : List WLEntry) (t1 t2 : Nat)
    (id : String) :
    (frontierHasId wl id = false →
      pushToWaitingList wl t1 id = wl ++ [⟨id, t1⟩]) ∧
    (frontierHasId wl id = true → pushToWaitingList wl t1 id = wl) ∧
    pushToWaitingList (pushToWaitingList wl t1 id) t2 id =
      pushToWaitingList wl t1 id ∧
    (frontierHasId wl id = false →
      (pushToWaitingList (pushToWaitingList wl t1 id) t2 id).length =
        wl.length + 1) ∧
    (∀ id', liveCount wl id' ≤ 1 →
      liveCount (pushToWaitingList (pushToWaitingList wl t1 id) t2 id) id' ≤ 1) := by
  refine ⟨?_, ?_, ?_, ?_, ?_⟩
  · exact push_insert_of_not_hasId wl t1 id
  · exact push_noop_of_hasId wl t1 id
  · exact push_noop_of_hasId _ t2 id (frontierHasId_push_self wl t1 id)
  · intro h
    rw [push_noop_of_hasId _ t2 id (frontierHasId_push_self wl t1 id),
      push_insert_of_not_hasId wl t1 id h]
    simp
  · intro id' h
    exact liveCount_le_one_push _ t2 id id'
      (liveCount_le_one_push wl t1 id id' h)

theorem claim_C1_witness :
    frontierHasId ([] : List WLEntry) "a" = false ∧
    (pushToWaitingList (pushToWaitingList ([] : List WLEntry) 0 "a") 1 "a").length =
      ([] : List WLEntry).length + 1 :=
  ⟨by decide, (claim_C1_push_idempotent [] 0 1 "a").2.2.2.1 (by decide)⟩

theorem sortByPrioDesc_perm (wl : List WLEntry) :
    List.Perm (sortByPrioDesc wl) wl :=
  List.perm_insertionSort prioGe wl

theorem sortByPrioDesc_sorted (wl : List WLEntry) :
    List.Pairwise prioGe (sortByPrioDesc wl) :=
  List.sorted_insertionSort prioGe wl

theorem pairwise_strict_of_sorted_distinct {l : List WLEntry}
    (h1 : List.Pairwise prioGe l)
    (h2 : List.Pairwise (fun a b => a.priority ≠ b.priority) l) :
    List.Pairwise (fun a b => b.priority < a.priority) l := by
  induction l with
  | nil => exact List.Pairwise.nil
  | cons x xs ih =>
    rw [List.pairwise_cons] at h1 h2 ⊢
    refine ⟨fun b hb => ?_, ih h1.2 h2.2⟩
    exact Nat.lt_of_le_of_ne (h1.1 b hb) (fun he => h2.1 b hb he.symm)

/-- C2: `popBatchFromWaitingList n` returns the batch in strictly
descending priority order (most recently enqueued first, given the
pairwise-distinct priorities the monotone timestamp source produces),
removes exactly `min n size` rows, returns the empty batch on an empty
frontier, and on the frontier `a, b, c` with priorities `3, 1, 2` a batch
of 2 returns `[a, c]` in that order and leaves `[b]`. -/
theorem claim_C2_popBatch_order (wl : List WLEntry) (n : Nat) :
    (popBatchFromWaitingList wl n).1.length = min n wl.length ∧
    (popBatchFromWaitingList wl n).2.length = wl.length - n ∧
    (wl = [] → (popBatchFromWaitingList wl n).1 = []) ∧
    List.Pairwise prioGe (sortByPrioDesc wl) ∧
    (List.Pairwise (fun a b => a.priority ≠ b.priority) wl →
      List.Pairwise (fun a b => b.priority < a.priority)
        ((sortByPrioDesc wl).take n)) ∧
    popBatchFromWaitingList [⟨"a", 3⟩, ⟨"b", 1⟩, ⟨"c", 2⟩] 2 =
      (["a", "c"], [⟨"b", 1⟩]) := by
  have hlen : (sortByPrioDesc wl).length = wl.length :=
    (sortByPrioDesc_perm wl).length_eq
  refine ⟨?_, ?_, ?_, sortByPrioDesc_sorted wl, ?_, by decide⟩
  · simp [popBatchFromWaitingList, hlen]
  · simp [popBatchFromWaitingList, hlen]
  · intro h
    subst h
    simp [popBatchFromWaitingList, sortByPrioDesc]
  · intro hdist
    have hdist' : List.Pairwise (fun a b => a.priority ≠ b.priority)
        (sortByPrioDesc wl) := by
      refine ((sortByPrioDesc_perm wl).pairwise_iff ?_).mpr hdist
      intro a b hab
      exact hab.symm
    have := pairwise_strict_of_sorted_distinct (sortByPrioDesc_sorted wl) hdist'
    exact this.sublist (List.take_sublist n _)

theorem claim_C2_witness :
    List.Pairwise (fun a b : WLEntry => a.priority ≠ b.priority)
      [⟨"a", 3⟩, ⟨"b", 1⟩, ⟨"c", 2⟩] ∧
    List.Pairwise (fun a b : WLEntry => b.priority < a.priority)
      ((sortByPrioDesc [⟨"a", 3⟩, ⟨"b", 1⟩, ⟨"c", 2⟩]).take 2) ∧
    (popBatchFromWaitingList ([] : List WLEntry) 5).1 = [] :=
  ⟨by decide,
   (claim_C2_popBatch_order [⟨"a", 3⟩, ⟨"b", 1⟩, ⟨"c", 2⟩] 2).2.2.2.2.1 (by decide),
   (claim_C2_popBatch_order [] 5).2.2.1 rfl⟩

/-- Numeric value of a run of decimal digit characters. -/
def digitsVal (ds : List Char) : Nat :=
  ds.foldl (fun a c => a * 10 + (c.toNat - 48)) 0

/-- JavaScript `parseInt` on decimal text: skip leading whitespace, an
optional sign, then read leading digits; `none` models the `NaN` returned
when no digit is found. -/
def parseIntJS (s : String) : Option Int :=
  let cs := s.data.dropWhile (fun c => c.isWhitespace)
  let signed : Int × List Char :=
    match cs with
    | '-' :: t => (-1, t)
    | '+' :: t => (1, t)
    | t => (1, t)
  let ds := signed.2.takeWhile (fun c => c.isDigit)
  if ds.isEmpty then none
  else some (signed.1 * (digitsVal ds : Int))

/-- JavaScript `parseFloat` on plain decimal text (the service only feeds
it digit-and-dot captures and short rating texts): skip leading
whitespace, an optional sign, then leading `digits[.digits]`; `none`
models `NaN`. -/
def parseFloatJS (s : String) : Option Rat :=
  let cs := s.data.dropWhile (fun c => c.isWhitespace)
  let signed : Rat × List Char :=
    match cs with
    | '-' :: t => (-1, t)
    | '+' :: t => (1, t)
    | t => (1, t)
  let ip := signed.2.takeWhile (fun c => c.isDigit)
  let rest := signed.2.drop ip.length
  match rest with
  | '.' :: r2 =>
    let fp := r2.takeWhile (fun c => c.isDigit)
    if ip.isEmpty && fp.isEmpty then none
    else some (signed.1 *
      ((digitsVal ip : Rat) + (digitsVal fp : Rat) / ((10 : Rat) ^ fp.length)))
  | _ => if ip.isEmpty then none else some (signed.1 * (digitsVal ip : Rat))

/-- First regex match of `pre` followed by a non-empty run of `ok`
characters: models `text.match(/pre([ok]+)/)` returning the capture
group. -/
def captureAfter (pre : List Char) (ok : Char → Bool) :
    List Char → Option (List Char)
  | [] => none
  | c :: cs =>
    if pre.isPrefixOf (c :: cs) then
      let cap := ((c :: cs).drop pre.length).takeWhile ok
      if cap.isEmpty then captureAfter pre ok cs else some cap
    else captureAfter pre ok cs

/-- Trailing-whitespace removal on the character list (the kernel can
evaluate this, unlike the `Substring`-based `String.trimRight`). -/
def trimRightChars (cs : List Char) : List Char :=
  (cs.reverse.dropWhile Char.isWhitespace).reverse

/-- Leading- and trailing-whitespace removal on the character list. -/
def trimChars (cs : List Char) : List Char :=
  trimRightChars (cs.dropWhile Char.isWhitespace)

/-- JavaScript `String.prototype.trim`. -/
def trimJS (s : String) : String :=
  String.mk (trimChars s.data)

/-- The synopsis paragraph cleanup: `text.replace` of a trailing
close-button glyph (an `×` followed only by whitespace at the end of the
text), then `.trim()`. -/
def cleanSynText (t : String) : String :=
  let r := trimRightChars t.data
  let r2 :=
    match r.reverse with
    | '×' :: rest => rest.reverse
    | _ => r
  String.mk (trimChars r2)

/-- The scraped fields of one film page (`ScrapedMovie` interface).
Numeric fields are `Option`s whose `none` is JavaScript `NaN`. -/
structure ScrapedMovie where
  slug : String
  title : String
  releaseYear : Option Int
  watchedBy : Option Int
  avgRating : Option Rat
  synopsis : String
  genres : List String
  themes : List String
  director : List String
  cast : List String
deriving DecidableEq

/-- The locator results `scrapeMoviePage` reads from a loaded film page.
`none` at the outer level means the corresponding `findElement` failed
(raising inside the per-field `try`); for `watched` and `rating` the inner
`Option` is the `getAttribute` result, whose `null` makes the subsequent
`.match` call raise. -/
structure FilmDoc where
  title : Option String
  releaseYearText : Option String
  watched : Option (Option String)
  rating : Option (Option String × String)
  synopsisParas : Option (List String)
  synopsisFallback : Option String
  castNames : Option (List String)
  genreNames : Option (List String)
  themeNames : Option (List String)
  directorNames : Option (List String)
deriving DecidableEq

/-- `scrapeMoviePage` (service lines 205-422), extraction part: the movie
record starts from zero-value defaults and each field is filled by its own
`try` block; any failure inside a block leaves that field at its default
and moves on to the next block.  Page navigation is modelled separately
(`World.filmPage`): a page that fails to load never reaches this
function. -/
def scrapeMoviePage (slug : String) (doc : FilmDoc) : ScrapedMovie :=
  { slug := slug
    title :=
      match doc.title with
      | none => ""
      | some t => t
    releaseYear :=
      match doc.releaseYearText with
      | none => some 0
      | some t => parseIntJS t
    watchedBy :=
      match doc.watched with
      | none => some 0
      | some none => some 0
      | some (some attr) =>
        match captureAfter "Watched by ".data
            (fun c => c.isDigit || c == ',') attr.data with
        | none => some 0
        | some cap => parseIntJS (String.mk (cap.filter (fun c => c != ',')))
    avgRating :=
      match doc.rating with
      | none => some 0
      | some (none, _) => some 0
      | some (some attr, text) =>
        match captureAfter "Weighted average of ".data
            (fun c => c.isDigit || c == '.') attr.data with
        | some cap => parseFloatJS (String.mk cap)
        | none => parseFloatJS text
    synopsis :=
      match doc.synopsisParas with
      | some ps =>
        String.intercalate "\n\n"
          ((ps.map cleanSynText).filter (fun t => t != ""))
      | none =>
        match doc.synopsisFallback with
        | some t => t
        | none => ""
    genres :=
      match doc.genreNames with
      | none => []
      | some gs => gs.filter (fun g => g != "")
    themes :=
      match doc.themeNames with
      | none => []
      | some ts => ts.filter (fun t => t != "" && t != "Show All…")
    director :=
      match doc.directorNames with
      | none => []
      | some ds => ds.filter (fun d => d != "")
    cast :=
      match doc.castNames with
      | none => []
      | some names =>
        (names.take 10).filterMap
          (fun n => if trimJS n == "" then none else some (trimJS n)) }

/-- C9: extraction is per-field: a field whose locators fail takes its
zero-value default (empty string, numeric `0`, empty list) while every
other field is computed exactly as it would be otherwise, and the page
always yields a record for the requested slug instead of throwing. -/
theorem claim_C9_field_isolation (slug : String) (d d' : FilmDoc) :
    (d.title = none → (scrapeMoviePage slug d).title = "") ∧
    (d.releaseYearText = none → (scrapeMoviePage slug d).releaseYear = some 0) ∧
    (d.watched = none → (scrapeMoviePage slug d).watchedBy = some 0) ∧
    (d.rating = none → (scrapeMoviePage slug d).avgRating = some 0) ∧
    (d.synopsisParas = none → d.synopsisFallback = none →
      (scrapeMoviePage slug d).synopsis = "") ∧
    (d.castNames = none → (scrapeMoviePage slug d).cast = []) ∧
    (d.genreNames = none → (scrapeMoviePage slug d).genres = []) ∧
    (d.themeNames = none → (scrapeMoviePage slug d).themes = []) ∧
    (d.directorNames = none → (scrapeMoviePage slug d).director = []) ∧
    (scrapeMoviePage slug d).slug = slug ∧
    (d.title = d'.title →
      (scrapeMoviePage slug d).title = (scrapeMoviePage slug d').title) ∧
    (d.releaseYearText = d'.releaseYearText →
      (scrapeMoviePage slug d).releaseYear = (scrapeMoviePage slug d').releaseYear) ∧
    (d.watched = d'.watched →
      (scrapeMoviePage slug d).watchedBy = (scrapeMoviePage slug d').watchedBy) ∧
    (d.rating = d'.rating →
      (scrapeMoviePage slug d).avgRating = (scrapeMoviePage slug d').avgRating) ∧
    (d.synopsisParas = d'.synopsisParas → d.synopsisFallback = d'.synopsisFallback →
      (scrapeMoviePage slug d).synopsis = (scrapeMoviePage slug d').synopsis) ∧
    (d.castNames = d'.castNames →
      (scrapeMoviePage slug d).cast = (scrapeMoviePage slug d').cast) ∧
    (d.genreNames = d'.genreNames →
      (scrapeMoviePage slug d).genres = (scrapeMoviePage slug d').genres) ∧
    (d.themeNames = d'.themeNames →
      (scrapeMoviePage slug d).themes = (scrapeMoviePage slug d').themes) ∧
    (d.directorNames = d'.directorNames →
      (scrapeMoviePage slug d).director = (scrapeMoviePage slug d').director) := by
  refine ⟨?_, ?_, ?_, ?_, ?_, ?_, ?_, ?_, ?_, rfl, ?_, ?_, ?_, ?_, ?_, ?_, ?_, ?_, ?_⟩ <;>
    intro h <;>
    simp only [scrapeMoviePage] <;>
    first
      | (intro h2; rw [h, h2])
      | (rw [h])

theorem claim_C9_witness :
    let dFail : FilmDoc :=
      ⟨none, none, none, none, none, none, none, none, none, none⟩
    let dFull : FilmDoc :=
      ⟨some "Parasite", some "2019", none, none, none, none, none,
        some ["Drama", "Thriller"], none, none⟩
    (scrapeMoviePage "parasite-2019" dFail).title = "" ∧
    (scrapeMoviePage "parasite-2019" dFail).genres = [] ∧
    (scrapeMoviePage "parasite-2019" dFull).watchedBy = some 0 := by
  refine ⟨?_, ?_, ?_⟩
  · exact (claim_C9_field_isolation "parasite-2019"
      ⟨none, none, none, none, none, none, none, none, none, none⟩
      ⟨none, none, none, none, none, none, none, none, none, none⟩).1 rfl
  · exact (claim_C9_field_isolation "parasite-2019"
      ⟨none, none, none, none, none, none, none, none, none, none⟩
      ⟨none, none, none, none, none, none, none, none, none, none⟩).2.2.2.2.2.2.1 rfl
  · exact (claim_C9_field_isolation "parasite-2019"
      ⟨some "Parasite", some "2019", none, none, none, none, none,
        some ["Drama", "Thriller"], none, none⟩
      ⟨some "Parasite", some "2019", none, none, none, none, none,
        some ["Drama", "Thriller"], none, none⟩).2.2.1 rfl

/-- A row of the `movie` table (`Movie` entity): multi-value fields are
stored delimiter-joined, numeric fields as in `ScrapedMovie`. -/
structure Movie where
  movieUid : String
  movieName : String
  releaseYear : Option Int
  watchedBy : Option Int
  avgRating : Option Rat
  synopsis : String
  genres : String
  themes : String
  director : String
  cast : String
deriving DecidableEq

/-- The column assignment performed by `saveMovie` (service lines
852-867): comma-joined genres, director and cast, pipe-joined themes. -/
def movieOfScraped (m : ScrapedMovie) : Movie :=
  { movieUid := m.slug
    movieName := m.title
    releaseYear := m.releaseYear
    watchedBy := m.watchedBy
    avgRating := m.avgRating
    synopsis := m.synopsis
    genres := String.intercalate ", " m.genres
    themes := String.intercalate "|" m.themes
    director := String.intercalate ", " m.director
    cast := String.intercalate ", " m.cast }

/-- `movieRepository.save`: insert, or overwrite the row with the same
primary key. -/
def saveMovie (movies : List Movie) (m : Movie) : List Movie :=
  if movies.any (fun x => x.movieUid == m.movieUid) then
    movies.map (fun x => if x.movieUid == m.movieUid then m else x)
  else movies ++ [m]

/-- JavaScript emptiness test the repair pass uses on string columns:
`!v || v === ''`. -/
def emptyStr (s : String) : Bool :=
  s == ""

/-- JavaScript emptiness test on integer columns: `!v || v === 0`, which
is true for `0` and for `NaN`. -/
def emptyNumI (v : Option Int) : Bool :=
  v == none || v == some 0

/-- JavaScript emptiness test on the decimal rating column. -/
def emptyNumR (v : Option Rat) : Bool :=
  v == none || v == some 0

/-- The partial-entity argument `repairIncompleteMovies` builds for
`movieRepository.update`, keyed as the service keys it.  Note that the
keys `title` and `watchedByCount` match no property of the `Movie`
entity, whose real properties are `movieName` and `watchedBy` (the same
function reads `oldMovie.movieName` / `oldMovie.watchedBy`, and
`saveMovie` writes them).  A `none` field is absent from the update. -/
structure MovieUpdates where
  title : Option String
  releaseYear : Option (Option Int)
  watchedByCount : Option (Option Int)
  avgRating : Option (Option Rat)
  synopsis : Option String
  genres : Option String
  themes : Option String
  director : Option String
  cast : Option String
deriving DecidableEq

/-- The update-set accumulation of `repairIncompleteMovies` (service lines
500-539): one `if` per field, each firing exactly when the stored value is
JavaScript-falsy, unconditionally taking the freshly scraped value. -/
def computeRepairUpdates (oldMovie : Movie) (newMovieData : ScrapedMovie) :
    MovieUpdates :=
  let u0 : MovieUpdates :=
    ⟨none, none, none, none, none, none, none, none, none⟩
  let u1 := if emptyStr oldMovie.movieName then
    { u0 with title := some newMovieData.title } else u0
  let u2 := if emptyNumI oldMovie.releaseYear then
    { u1 with releaseYear := some newMovieData.releaseYear } else u1
  let u3 := if emptyNumI oldMovie.watchedBy then
    { u2 with watchedByCount := some newMovieData.watchedBy } else u2
  let u4 := if emptyNumR oldMovie.avgRating then
    { u3 with avgRating := some newMovieData.avgRating } else u3
  let u5 := if emptyStr oldMovie.synopsis then
    { u4 with synopsis := some newMovieData.synopsis } else u4
  let u6 := if emptyStr oldMovie.genres then
    { u5 with genres := some (String.intercalate ", " newMovieData.genres) } else u5
  let u7 := if emptyStr oldMovie.themes then
    { u6 with themes := some (String.intercalate "|" newMovieData.themes) } else u6
  let u8 := if emptyStr oldMovie.director then
    { u7 with director := some (String.intercalate ", " newMovieData.director) } else u7
  let u9 := if emptyStr oldMovie.cast then
    { u8 with cast := some (String.intercalate ", " newMovieData.cast) } else u8
  u9

/-- The `hasUpdates` flag of `repairIncompleteMovies`: it is set to `true`
in exactly the branches above, hence equals this disjunction of the same
falsiness tests. -/
def repairHasUpdates (oldMovie : Movie) : Bool :=
  emptyStr oldMovie.movieName || emptyNumI oldMovie.releaseYear ||
  emptyNumI oldMovie.watchedBy || emptyNumR oldMovie.avgRating ||
  emptyStr oldMovie.synopsis || emptyStr oldMovie.genres ||
  emptyStr oldMovie.themes || emptyStr oldMovie.director ||
  emptyStr oldMovie.cast

/-- Effect of the update call for the keys that do match an entity
property: each such present key is written to its column, the rest keep
their stored values.  The keys `title` and `watchedByCount` match no
`Movie` property, so no behavior of the store writes the `movie_name` or
`watched_by` column from them — those two fields are never touched
here. -/
def applyValidRepairUpdates (oldMovie : Movie) (u : MovieUpdates) : Movie :=
  { oldMovie with
    releaseYear := u.releaseYear.getD oldMovie.releaseYear
    avgRating := u.avgRating.getD oldMovie.avgRating
    synopsis := u.synopsis.getD oldMovie.synopsis
    genres := u.genres.getD oldMovie.genres
    themes := u.themes.getD oldMovie.themes
    director := u.director.getD oldMovie.director
    cast := u.cast.getD oldMovie.cast }

/-- Does the update set carry a key that matches no `Movie` entity
property (`title`, `watchedByCount`)? -/
def hasUnknownKeys (u : MovieUpdates) : Bool :=
  u.title.isSome || u.watchedByCount.isSome

/-- The possible treatments of a partial-entity key that matches no
entity property, depending on the store version: the update call raises
an unknown-property error — caught by the per-movie `catch`, so the
record keeps all its stored values — or the unknown keys are silently
dropped and the remaining valid keys written. -/
inductive UnknownKeyMode
  | raiseOnUnknown
  | ignoreUnknown
deriving DecidableEq

/-- Effect of `movieRepository.update({movieUid}, updates)` on the stored
row, under either unknown-key behavior. -/
def applyRepairUpdates (mode : UnknownKeyMode) (oldMovie : Movie)
    (u : MovieUpdates) : Movie :=
  match mode with
  | .raiseOnUnknown =>
    if hasUnknownKeys u then oldMovie
    else applyValidRepairUpdates oldMovie u
  | .ignoreUnknown => applyValidRepairUpdates oldMovie u

/-- One repaired record: re-scraped data merged into the stored row, the
update only issued when `hasUpdates` is set. -/
def repairMovieRecord (mode : UnknownKeyMode) (oldMovie : Movie)
    (newMovieData : ScrapedMovie) : Movie :=
  if repairHasUpdates oldMovie then
    applyRepairUpdates mode oldMovie
      (computeRepairUpdates oldMovie newMovieData)
  else oldMovie

theorem repairUpdates_title (oldMovie : Movie) (newMovieData : ScrapedMovie) :
    (computeRepairUpdates oldMovie newMovieData).title =
      if emptyStr oldMovie.movieName then some newMovieData.title else none := by
  simp only [computeRepairUpdates, apply_ite MovieUpdates.title, ite_self]

theorem repairUpdates_releaseYear (oldMovie : Movie)
    (newMovieData : ScrapedMovie) :
    (computeRepairUpdates oldMovie newMovieData).releaseYear =
      if emptyNumI oldMovie.releaseYear then some newMovieData.releaseYear
      else none := by
  simp only [computeRepairUpdates, apply_ite MovieUpdates.releaseYear, ite_self]

theorem repairUpdates_watchedBy (oldMovie : Movie)
    (newMovieData : ScrapedMovie) :
    (computeRepairUpdates oldMovie newMovieData).watchedByCount =
      if emptyNumI oldMovie.watchedBy then some newMovieData.watchedBy
      else none := by
  simp only [computeRepairUpdates, apply_ite MovieUpdates.watchedByCount,
    ite_self]

theorem repairUpdates_avgRating (oldMovie : Movie)
    (newMovieData : ScrapedMovie) :
    (computeRepairUpdates oldMovie newMovieData).avgRating =
      if emptyNumR oldMovie.avgRating then some newMovieData.avgRating
      else none := by
  simp only [computeRepairUpdates, apply_ite MovieUpdates.avgRating, ite_self]

theorem repairUpdates_synopsis (oldMovie : Movie)
    (newMovieData : ScrapedMovie) :
    (computeRepairUpdates oldMovie newMovieData).synopsis =
      if emptyStr oldMovie.synopsis then some newMovieData.synopsis
      else none := by
  simp only [computeRepairUpdates, apply_ite MovieUpdates.synopsis, ite_self]

theorem repairUpdates_genres (oldMovie : Movie)
    (newMovieData : ScrapedMovie) :
    (computeRepairUpdates oldMovie newMovieData).genres =
      if emptyStr oldMovie.genres then
        some (String.intercalate ", " newMovieData.genres)
      else none := by
  simp only [computeRepairUpdates, apply_ite MovieUpdates.genres, ite_self]

theorem repairUpdates_themes (oldMovie : Movie)
    (newMovieData : ScrapedMovie) :
    (computeRepairUpdates oldMovie newMovieData).themes =
      if emptyStr oldMovie.themes then
        some (String.intercalate "|" newMovieData.themes)
      else none := by
  simp only [computeRepairUpdates, apply_ite MovieUpdates.themes, ite_self]

theorem repairUpdates_director (oldMovie : Movie)
    (newMovieData : ScrapedMovie) :
    (computeRepairUpdates oldMovie newMovieData).director =
      if emptyStr oldMovie.director then
        some (String.intercalate ", " newMovieData.director)
      else none := by
  simp only [computeRepairUpdates, apply_ite MovieUpdates.director, ite_self]

theorem repairUpdates_cast (oldMovie : Movie) (newMovieData : ScrapedMovie) :
    (computeRepairUpdates oldMovie newMovieData).cast =
      if emptyStr oldMovie.cast then
        some (String.intercalate ", " newMovieData.cast)
      else none := by
  simp only [computeRepairUpdates, apply_ite MovieUpdates.cast, ite_self]

theorem ite_some_none_getD {α : Type} (c : Prop) [Decidable c] (v d : α) :
    (if c then some v else none).getD d = if c then v else d := by
  split <;> rfl

theorem repairMovieRecord_cases (mode : UnknownKeyMode) (oldMovie : Movie)
    (newMovieData : ScrapedMovie) :
    repairMovieRecord mode oldMovie newMovieData = oldMovie ∨
    repairMovieRecord mode oldMovie newMovieData =
      applyValidRepairUpdates oldMovie
        (computeRepairUpdates oldMovie newMovieData) := by
  unfold repairMovieRecord applyRepairUpdates
  by_cases hu : repairHasUpdates oldMovie
  · cases mode with
    | raiseOnUnknown =>
      by_cases hk : hasUnknownKeys (computeRepairUpdates oldMovie newMovieData)
      · left
        simp [hu, hk]
      · right
        simp [hu, hk]
    | ignoreUnknown =>
      right
      simp [hu]
  · left
    simp [hu]

theorem repairMovieRecord_eq_valid (mode : UnknownKeyMode) (oldMovie : Movie)
    (newMovieData : ScrapedMovie)
    (h : mode = UnknownKeyMode.ignoreUnknown ∨
      (emptyStr oldMovie.movieName = false ∧
        emptyNumI oldMovie.watchedBy = false)) :
    repairMovieRecord mode oldMovie newMovieData =
      if repairHasUpdates oldMovie then
        applyValidRepairUpdates oldMovie
          (computeRepairUpdates oldMovie newMovieData)
      else oldMovie := by
  unfold repairMovieRecord applyRepairUpdates
  by_cases hu : repairHasUpdates oldMovie
  · simp only [hu, if_true]
    cases mode with
    | raiseOnUnknown =>
      rcases h with h | ⟨h1, h2⟩
      · exact absurd h (by decide)
      · have hk : hasUnknownKeys
            (computeRepairUpdates oldMovie newMovieData) = false := by
          unfold hasUnknownKeys
          rw [repairUpdates_title, repairUpdates_watchedBy]
          simp [h1, h2]
        simp [hk]
    | ignoreUnknown => rfl
  · simp [hu]

/-- C5: the repair pass never changes a populated stored field: under
either unknown-key behavior of the store, every field whose stored value
is non-empty (non-zero) keeps its stored value across
`repairIncompleteMovies`, whatever the re-scraped data says. -/
theorem claim_C5_repair_preserves_populated (mode : UnknownKeyMode)
    (oldMovie : Movie) (newMovieData : ScrapedMovie) :
    (emptyStr oldMovie.movieName = false →
      (repairMovieRecord mode oldMovie newMovieData).movieName =
        oldMovie.movieName) ∧
    (emptyNumI oldMovie.releaseYear = false →
      (repairMovieRecord mode oldMovie newMovieData).releaseYear =
        oldMovie.releaseYear) ∧
    (emptyNumI oldMovie.watchedBy = false →
      (repairMovieRecord mode oldMovie newMovieData).watchedBy =
        oldMovie.watchedBy) ∧
    (emptyNumR oldMovie.avgRating = false →
      (repairMovieRecord mode oldMovie newMovieData).avgRating =
        oldMovie.avgRating) ∧
    (emptyStr oldMovie.synopsis = false →
      (repairMovieRecord mode oldMovie newMovieData).synopsis =
        oldMovie.synopsis) ∧
    (emptyStr oldMovie.genres = false →
      (repairMovieRecord mode oldMovie newMovieData).genres =
        oldMovie.genres) ∧
    (emptyStr oldMovie.themes = false →
      (repairMovieRecord mode oldMovie newMovieData).themes =
        oldMovie.themes) ∧
    (emptyStr oldMovie.director = false →
      (repairMovieRecord mode oldMovie newMovieData).director =
        oldMovie.director) ∧
    (emptyStr oldMovie.cast = false →
      (repairMovieRecord mode oldMovie newMovieData).cast =
        oldMovie.cast) := by
  refine ⟨?_, ?_, ?_, ?_, ?_, ?_, ?_, ?_, ?_⟩ <;>
    intro h <;>
    rcases repairMovieRecord_cases mode oldMovie newMovieData with hre | hre <;>
    rw [hre] <;>
    simp [applyValidRepairUpdates, repairUpdates_title,
      repairUpdates_releaseYear, repairUpdates_watchedBy,
      repairUpdates_avgRating, repairUpdates_synopsis, repairUpdates_genres,
      repairUpdates_themes, repairUpdates_director, repairUpdates_cast,
      ite_some_none_getD, h]

theorem claim_C5_witness :
    let old0 : Movie :=
      ⟨"m", "Name", some 2019, some 10, some 4, "", "Drama", "T", "D", "C"⟩
    let new0 : ScrapedMovie :=
      ⟨"m", "Other", some 2020, some 99, some 3, "S", ["G2"], ["T2"], ["D2"], ["C2"]⟩
    emptyStr old0.synopsis = true ∧
    (repairMovieRecord UnknownKeyMode.raiseOnUnknown old0 new0).synopsis = "S" ∧
    (repairMovieRecord UnknownKeyMode.ignoreUnknown old0 new0).synopsis = "S" ∧
    (repairMovieRecord UnknownKeyMode.raiseOnUnknown old0 new0).movieName =
      old0.movieName ∧
    (repairMovieRecord UnknownKeyMode.raiseOnUnknown old0 new0).releaseYear =
      old0.releaseYear ∧
    (repairMovieRecord UnknownKeyMode.raiseOnUnknown old0 new0).watchedBy =
      old0.watchedBy ∧
    (repairMovieRecord UnknownKeyMode.raiseOnUnknown old0 new0).avgRating =
      old0.avgRating ∧
    (repairMovieRecord UnknownKeyMode.raiseOnUnknown old0 new0).genres =
      old0.genres ∧
    (repairMovieRecord UnknownKeyMode.raiseOnUnknown old0 new0).themes =
      old0.themes ∧
    (repairMovieRecord UnknownKeyMode.raiseOnUnknown old0 new0).director =
      old0.director ∧
    (repairMovieRecord UnknownKeyMode.raiseOnUnknown old0 new0).cast =
      old0.cast := by
  refine ⟨by decide, by decide, by decide, ?_, ?_, ?_, ?_, ?_, ?_, ?_, ?_⟩
  · exact (claim_C5_repair_preserves_populated
      UnknownKeyMode.raiseOnUnknown _ _).1 (by decide)
  · exact (claim_C5_repair_preserves_populated
      UnknownKeyMode.raiseOnUnknown _ _).2.1 (by decide)
  · exact (claim_C5_repair_preserves_populated
      UnknownKeyMode.raiseOnUnknown _ _).2.2.1 (by decide)
  · exact (claim_C5_repair_preserves_populated
      UnknownKeyMode.raiseOnUnknown _ _).2.2.2.1 (by decide)
  · exact (claim_C5_repair_preserves_populated
      UnknownKeyMode.raiseOnUnknown _ _).2.2.2.2.2.1 (by decide)
  · exact (claim_C5_repair_preserves_populated
      UnknownKeyMode.raiseOnUnknown _ _).2.2.2.2.2.2.1 (by decide)
  · exact (claim_C5_repair_preserves_populated
      UnknownKeyMode.raiseOnUnknown _ _).2.2.2.2.2.2.2.1 (by decide)
  · exact (claim_C5_repair_preserves_populated
      UnknownKeyMode.raiseOnUnknown _ _).2.2.2.2.2.2.2.2 (by decide)

/-- C6 counterexample: the claim says a stored field is overwritten only
when the fresh value is non-empty and that a record whose re-extraction
yields no improvement gets no update.  In the code the fresh value is
never checked: for a record whose only empty field is the synopsis, and a
re-scrape that comes back entirely empty (no improvement), `hasUpdates` is
still set and the issued update writes the empty fresh synopsis. -/
theorem claim_C6_counterexample :
    repairHasUpdates
      ⟨"m", "Name", some 2019, some 10, some 4, "", "Drama", "T", "D", "C"⟩ = true ∧
    (computeRepairUpdates
      ⟨"m", "Name", some 2019, some 10, some 4, "", "Drama", "T", "D", "C"⟩
      ⟨"m", "", some 0, some 0, some 0, "", [], [], [], []⟩).synopsis =
      some "" := by
  constructor
  · decide
  · decide

/-- C6 (amended): the in-memory update set built by the repair pass
contains a key for a field exactly when the stored value is empty/zero
(JavaScript-falsy), carrying the freshly re-extracted value whether or
not that value is itself empty, and an update call is issued iff at
least one stored field is falsy — so a record with no empty field is
skipped unchanged, while a no-improvement re-extraction still issues an
update.  The keys for the name and watched-by columns (`title`,
`watchedByCount`) match no `Movie` entity property, so those two columns
are never repaired under either unknown-key behavior of the store; the
seven valid-key columns follow the stored-empty rule whenever the update
is applied (always when unknown keys are dropped, and under the raising
behavior whenever no unknown key is present), while under the raising
behavior a record with an empty name or watched-by count is left
entirely unchanged, the raised error being caught per movie. -/
theorem claim_C6_repair_overwrite_rule (mode : UnknownKeyMode)
    (oldMovie : Movie) (newMovieData : ScrapedMovie) :
    ((computeRepairUpdates oldMovie newMovieData).title =
      if emptyStr oldMovie.movieName then some newMovieData.title
      else none) ∧
    ((computeRepairUpdates oldMovie newMovieData).releaseYear =
      if emptyNumI oldMovie.releaseYear then some newMovieData.releaseYear
      else none) ∧
    ((computeRepairUpdates oldMovie newMovieData).watchedByCount =
      if emptyNumI oldMovie.watchedBy then some newMovieData.watchedBy
      else none) ∧
    ((computeRepairUpdates oldMovie newMovieData).avgRating =
      if emptyNumR oldMovie.avgRating then some newMovieData.avgRating
      else none) ∧
    ((computeRepairUpdates oldMovie newMovieData).synopsis =
      if emptyStr oldMovie.synopsis then some newMovieData.synopsis
      else none) ∧
    ((computeRepairUpdates oldMovie newMovieData).genres =
      if emptyStr oldMovie.genres then
        some (String.intercalate ", " newMovieData.genres)
      else none) ∧
    ((computeRepairUpdates oldMovie newMovieData).themes =
      if emptyStr oldMovie.themes then
        some (String.intercalate "|" newMovieData.themes)
      else none) ∧
    ((computeRepairUpdates oldMovie newMovieData).director =
      if emptyStr oldMovie.director then
        some (String.intercalate ", " newMovieData.director)
      else none) ∧
    ((computeRepairUpdates oldMovie newMovieData).cast =
      if emptyStr oldMovie.cast then
        some (String.intercalate ", " newMovieData.cast)
      else none) ∧
    (repairHasUpdates oldMovie = false →
      repairMovieRecord mode oldMovie newMovieData = oldMovie) ∧
    ((repairMovieRecord mode oldMovie newMovieData).movieName =
      oldMovie.movieName) ∧
    ((repairMovieRecord mode oldMovie newMovieData).watchedBy =
      oldMovie.watchedBy) ∧
    ((mode = UnknownKeyMode.ignoreUnknown ∨
        (emptyStr oldMovie.movieName = false ∧
          emptyNumI oldMovie.watchedBy = false)) →
      ((repairMovieRecord mode oldMovie newMovieData).releaseYear =
        if emptyNumI oldMovie.releaseYear then newMovieData.releaseYear
        else oldMovie.releaseYear) ∧
      ((repairMovieRecord mode oldMovie newMovieData).avgRating =
        if emptyNumR oldMovie.avgRating then newMovieData.avgRating
        else oldMovie.avgRating) ∧
      ((repairMovieRecord mode oldMovie newMovieData).synopsis =
        if emptyStr oldMovie.synopsis then newMovieData.synopsis
        else oldMovie.synopsis) ∧
      ((repairMovieRecord mode oldMovie newMovieData).genres =
        if emptyStr oldMovie.genres then
          String.intercalate ", " newMovieData.genres
        else oldMovie.genres) ∧
      ((repairMovieRecord mode oldMovie newMovieData).themes =
        if emptyStr oldMovie.themes then
          String.intercalate "|" newMovieData.themes
        else oldMovie.themes) ∧
      ((repairMovieRecord mode oldMovie newMovieData).director =
        if emptyStr oldMovie.director then
          String.intercalate ", " newMovieData.director
        else oldMovie.director) ∧
      ((repairMovieRecord mode oldMovie newMovieData).cast =
        if emptyStr oldMovie.cast then
          String.intercalate ", " newMovieData.cast
        else oldMovie.cast)) ∧
    (mode = UnknownKeyMode.raiseOnUnknown →
      (emptyStr oldMovie.movieName = true ∨
        emptyNumI oldMovie.watchedBy = true) →
      repairMovieRecord mode oldMovie newMovieData = oldMovie) := by
  refine ⟨repairUpdates_title oldMovie newMovieData,
    repairUpdates_releaseYear oldMovie newMovieData,
    repairUpdates_watchedBy oldMovie newMovieData,
    repairUpdates_avgRating oldMovie newMovieData,
    repairUpdates_synopsis oldMovie newMovieData,
    repairUpdates_genres oldMovie newMovieData,
    repairUpdates_themes oldMovie newMovieData,
    repairUpdates_director oldMovie newMovieData,
    repairUpdates_cast oldMovie newMovieData, ?_, ?_, ?_, ?_, ?_⟩
  · intro hu
    unfold repairMovieRecord
    simp [hu]
  · rcases repairMovieRecord_cases mode oldMovie newMovieData with hre | hre <;>
      simp [hre, applyValidRepairUpdates]
  · rcases repairMovieRecord_cases mode oldMovie newMovieData with hre | hre <;>
      simp [hre, applyValidRepairUpdates]
  · intro hcase
    rw [repairMovieRecord_eq_valid mode oldMovie newMovieData hcase]
    by_cases hu : repairHasUpdates oldMovie
    · simp only [hu, if_true]
      refine ⟨?_, ?_, ?_, ?_, ?_, ?_, ?_⟩ <;>
        simp [applyValidRepairUpdates, repairUpdates_releaseYear,
          repairUpdates_avgRating, repairUpdates_synopsis,
          repairUpdates_genres, repairUpdates_themes, repairUpdates_director,
          repairUpdates_cast, ite_some_none_getD]
    · have hu2 : repairHasUpdates oldMovie = false := by
        simpa using hu
      have hu3 := hu2
      simp only [repairHasUpdates, Bool.or_eq_false_iff] at hu3
      simp only [hu2, Bool.false_eq_true, if_false]
      refine ⟨?_, ?_, ?_, ?_, ?_, ?_, ?_⟩ <;> simp [hu3]
  · intro hm hbad
    subst hm
    unfold repairMovieRecord
    by_cases hu : repairHasUpdates oldMovie
    · simp only [hu, if_true]
      unfold applyRepairUpdates
      have hk : hasUnknownKeys
          (computeRepairUpdates oldMovie newMovieData) = true := by
        unfold hasUnknownKeys
        rw [repairUpdates_title, repairUpdates_watchedBy]
        rcases hbad with hbb | hbb <;> simp [hbb]
      simp [hk]
    · simp [hu]

theorem claim_C6_witness :
    let old1 : Movie :=
      ⟨"m", "Name", some 2019, some 10, some 4, "S", "Drama", "T", "D", "C"⟩
    let old2 : Movie :=
      ⟨"m", "Name", some 2019, some 10, some 4, "", "Drama", "T", "D", "C"⟩
    let old3 : Movie :=
      ⟨"m", "", some 2019, some 10, some 4, "S", "Drama", "T", "D", "C"⟩
    let new1 : ScrapedMovie :=
      ⟨"m", "Other", some 2020, some 99, some 3, "S2", ["G2"], ["T2"], ["D2"], ["C2"]⟩
    repairHasUpdates old1 = false ∧
    repairMovieRecord UnknownKeyMode.raiseOnUnknown old1 new1 = old1 ∧
    (repairMovieRecord UnknownKeyMode.ignoreUnknown old2 new1).synopsis =
      "S2" ∧
    (repairMovieRecord UnknownKeyMode.ignoreUnknown old3 new1).movieName =
      "" ∧
    repairMovieRecord UnknownKeyMode.raiseOnUnknown old3 new1 = old3 := by
  refine ⟨by decide, ?_, ?_, ?_, ?_⟩
  · exact (claim_C6_repair_overwrite_rule UnknownKeyMode.raiseOnUnknown
      ⟨"m", "Name", some 2019, some 10, some 4, "S", "Drama", "T", "D", "C"⟩
      ⟨"m", "Other", some 2020, some 99, some 3, "S2", ["G2"], ["T2"], ["D2"],
        ["C2"]⟩).2.2.2.2.2.2.2.2.2.1 (by decide)
  · have h := ((claim_C6_repair_overwrite_rule UnknownKeyMode.ignoreUnknown
      ⟨"m", "Name", some 2019, some 10, some 4, "", "Drama", "T", "D", "C"⟩
      ⟨"m", "Other", some 2020, some 99, some 3, "S2", ["G2"], ["T2"], ["D2"],
        ["C2"]⟩).2.2.2.2.2.2.2.2.2.2.2.2.1 (Or.inl rfl)).2.2.1
    exact h.trans (by decide)
  · exact (claim_C6_repair_overwrite_rule UnknownKeyMode.ignoreUnknown
      ⟨"m", "", some 2019, some 10, some 4, "S", "Drama", "T", "D", "C"⟩
      ⟨"m", "Other", some 2020, some 99, some 3, "S2", ["G2"], ["T2"], ["D2"],
        ["C2"]⟩).2.2.2.2.2.2.2.2.2.2.1
  · exact (claim_C6_repair_overwrite_rule UnknownKeyMode.raiseOnUnknown
      ⟨"m", "", some 2019, some 10, some 4, "S", "Drama", "T", "D", "C"⟩
      ⟨"m", "Other", some 2020, some 99, some 3, "S2", ["G2"], ["T2"], ["D2"],
        ["C2"]⟩).2.2.2.2.2.2.2.2.2.2.2.2.2 rfl (Or.inl (by decide))

/-- A scraped review (`ScrapedReview` interface): `none` rating models the
`null` of an unrated review. -/
structure ScrapedReview where
  userUid : String
  movieUid : String
  rating : Option Int
  reviewText : String
deriving DecidableEq

/-- A row of the `reviews` table, including the stored content hash. -/
structure ReviewRow where
  userUid : String
  movieUid : String
  rating : Option Int
  reviewText : String
  reviewHash : String
deriving DecidableEq

/-- Modelled from the spec: the SHA-256 digest comes from the external
`crypto` library, not from this repository; the design requires only a
deterministic content fingerprint of the joined content string, so the
digest is modelled as a deterministic (and here injective) function of
that string. -/
def sha256hex (content : String) : String :=
  content

/-- The rating component of the hashed content:
`rating?.toString() || ''`, so a `null` rating is encoded as the empty
string. -/
def ratingStr (rating : Option Int) : String :=
  match rating with
  | none => ""
  | some n => toString n

/-- `generateReviewHash` (service lines 899-908): hash of
`[userUid, movieUid, rating-string, trimmed review text]` joined with
`|`. -/
def generateReviewHash (r : ScrapedReview) : String :=
  sha256hex (String.intercalate "|"
    [r.userUid, r.movieUid, ratingStr r.rating, trimJS r.reviewText])

/-- `saveReview` (service lines 872-897): look the fingerprint up; if a
row with this hash exists, skip; otherwise insert the review together
with its hash. -/
def saveReview (reviews : List ReviewRow) (r : ScrapedReview) :
    List ReviewRow :=
  let h := generateReviewHash r
  if reviews.any (fun row => row.reviewHash == h) then reviews
  else reviews ++ [⟨r.userUid, r.movieUid, r.rating, r.reviewText, h⟩]

/-- Number of stored rows carrying a given fingerprint. -/
def hashCount (reviews : List ReviewRow) (h : String) : Nat :=
  (reviews.filter (fun row => row.reviewHash == h)).length

/-- Is some stored row carrying this fingerprint? -/
def hasHash (reviews : List ReviewRow) (h : String) : Bool :=
  reviews.any (fun row => row.reviewHash == h)

theorem saveReview_noop_of_hasHash (reviews : List ReviewRow)
    (r : ScrapedReview) (h : hasHash reviews (generateReviewHash r) = true) :
    saveReview reviews r = reviews := by
  unfold saveReview
  unfold hasHash at h
  simp [h]

theorem saveReview_insert_of_not_hasHash (reviews : List ReviewRow)
    (r : ScrapedReview)
    (h : hasHash reviews (generateReviewHash r) = false) :
    saveReview reviews r =
      reviews ++ [⟨r.userUid, r.movieUid, r.rating, r.reviewText,
        generateReviewHash r⟩] := by
  unfold saveReview
  unfold hasHash at h
  simp [h]

theorem hasHash_saveReview_self (reviews : List ReviewRow)
    (r : ScrapedReview) :
    hasHash (saveReview reviews r) (generateReviewHash r) = true := by
  cases hmem : hasHash reviews (generateReviewHash r) with
  | true => rw [saveReview_noop_of_hasHash reviews r hmem]; exact hmem
  | false =>
    rw [saveReview_insert_of_not_hasHash reviews r hmem]
    unfold hasHash
    simp [List.any_append]

theorem hashCount_eq_zero_of_not_hasHash (reviews : List ReviewRow)
    (h : String) (hm : hasHash reviews h = false) : hashCount reviews h = 0 := by
  unfold hasHash at hm
  unfold hashCount
  rw [List.length_eq_zero, List.filter_eq_nil_iff]
  intro row hrow
  simp only [List.any_eq_false] at hm
  simpa using hm row hrow

theorem hashCount_append_single (reviews : List ReviewRow) (row : ReviewRow)
    (h : String) :
    hashCount (reviews ++ [row]) h =
      hashCount reviews h + (if row.reviewHash = h then 1 else 0) := by
  unfold hashCount
  rw [List.filter_append, List.length_append]
  by_cases hid : row.reviewHash = h
  · simp [List.filter, beq_iff_eq, hid]
  · have hb : (row.reviewHash == h) = false := by
      simpa using hid
    simp [List.filter, hb, hid]

theorem hashCount_le_one_saveReview (reviews : List ReviewRow)
    (r : ScrapedReview) (h : String) (hle : hashCount reviews h ≤ 1) :
    hashCount (saveReview reviews r) h ≤ 1 := by
  cases hmem : hasHash reviews (generateReviewHash r) with
  | true => rw [saveReview_noop_of_hasHash reviews r hmem]; exact hle
  | false =>
    rw [saveReview_insert_of_not_hasHash reviews r hmem,
      hashCount_append_single]
    by_cases hid : generateReviewHash r = h
    · subst hid
      have hz := hashCount_eq_zero_of_not_hasHash reviews _ hmem
      simp [hz]
    · simp only [hid, if_false]
      omega

/-- C10: the content fingerprint is a deterministic function of
`(userUid, movieUid, rating, reviewText)` whose text normalisation is
exactly `trim`: two reviews that agree on user, movie and rating and whose
texts agree after trimming get the same fingerprint, and a `null` rating
is encoded as the empty string in the hashed content. -/
theorem claim_C10_hash_deterministic (r r' : ScrapedReview) :
    (r.userUid = r'.userUid → r.movieUid = r'.movieUid →
      r.rating = r'.rating → trimJS r.reviewText = trimJS r'.reviewText →
      generateReviewHash r = generateReviewHash r') ∧
    (r.rating = none →
      generateReviewHash r =
        sha256hex (String.intercalate "|"
          [r.userUid, r.movieUid, "", trimJS r.reviewText])) := by
  constructor
  · intro h1 h2 h3 h4
    unfold generateReviewHash
    rw [h1, h2, h3, h4]
  · intro h
    unfold generateReviewHash
    rw [h]
    rfl

theorem claim_C10_witness :
    trimJS (⟨"alice", "parasite-2019", some 8, "  great movie "⟩ :
        ScrapedReview).reviewText =
      trimJS (⟨"alice", "parasite-2019", some 8, "great movie"⟩ :
        ScrapedReview).reviewText ∧
    generateReviewHash ⟨"alice", "parasite-2019", some 8, "  great movie "⟩ =
      generateReviewHash ⟨"alice", "parasite-2019", some 8, "great movie"⟩ ∧
    generateReviewHash ⟨"bob", "parasite-2019", none, "x"⟩ =
      sha256hex (String.intercalate "|" ["bob", "parasite-2019", "", "x"]) := by
  refine ⟨by decide, ?_, ?_⟩
  · exact (claim_C10_hash_deterministic
      ⟨"alice", "parasite-2019", some 8, "  great movie "⟩
      ⟨"alice", "parasite-2019", some 8, "great movie"⟩).1 rfl rfl rfl (by decide)
  · exact (claim_C10_hash_deterministic
      ⟨"bob", "parasite-2019", none, "x"⟩
      ⟨"bob", "parasite-2019", none, "x"⟩).2 rfl

/-- C7: ingesting two reviews with the same `(userUid, movieUid, rating,
trimmed text)` stores exactly one row: the second `saveReview` finds the
fingerprint and is a no-op, and `saveReview` preserves the invariant that
at most one row per fingerprint exists. -/
theorem claim_C7_review_dedup (reviews : List ReviewRow)
    (r r' : ScrapedReview) :
    (r.userUid = r'.userUid → r.movieUid = r'.movieUid →
      r.rating = r'.rating → trimJS r.reviewText = trimJS r'.reviewText →
      saveReview (saveReview reviews r) r' = saveReview reviews r ∧
      (hashCount reviews (generateReviewHash r) = 0 →
        hashCount (saveReview (saveReview reviews r) r')
          (generateReviewHash r) = 1)) ∧
    (∀ h, hashCount reviews h ≤ 1 →
      hashCount (saveReview reviews r) h ≤ 1) := by
  constructor
  · intro h1 h2 h3 h4
    have hsame : generateReviewHash r' = generateReviewHash r := by
      unfold generateReviewHash
      rw [h1, h2, h3, h4]
    have hnoop : saveReview (saveReview reviews r) r' = saveReview reviews r := by
      apply saveReview_noop_of_hasHash
      rw [hsame]
      exact hasHash_saveReview_self reviews r
    refine ⟨hnoop, ?_⟩
    intro hz
    rw [hnoop]
    have hmem : hasHash reviews (generateReviewHash r) = false := by
      unfold hashCount at hz
      unfold hasHash
      rw [List.length_eq_zero] at hz
      rw [List.any_eq_false]
      intro row hrow
      intro hcon
      have : row ∈ List.filter (fun row => row.reviewHash == generateReviewHash r) reviews := by
        rw [List.mem_filter]
        exact ⟨hrow, hcon⟩
      rw [hz] at this
      exact absurd this (List.not_mem_nil row)
    rw [saveReview_insert_of_not_hasHash reviews r hmem,
      hashCount_append_single,
      hashCount_eq_zero_of_not_hasHash reviews _ hmem]
    simp
  · intro h hle
    exact hashCount_le_one_saveReview reviews r h hle

theorem claim_C7_witness :
    let r1 : ScrapedReview := ⟨"alice", "m", some 8, " good "⟩
    let r2 : ScrapedReview := ⟨"alice", "m", some 8, "good"⟩
    saveReview (saveReview [] r1) r2 = saveReview [] r1 ∧
    hashCount (saveReview (saveReview [] r1) r2) (generateReviewHash r1) = 1 := by
  refine ⟨?_, ?_⟩
  · exact ((claim_C7_review_dedup [] ⟨"alice", "m", some 8, " good "⟩
      ⟨"alice", "m", some 8, "good"⟩).1 rfl rfl rfl (by decide)).1
  · exact ((claim_C7_review_dedup [] ⟨"alice", "m", some 8, " good "⟩
      ⟨"alice", "m", some 8, "good"⟩).1 rfl rfl rfl (by decide)).2 (by decide)


/-- One review article on a reviewer page, as `processReviewer` reads it:
the film slug from the poster link, the `rated-N` class match (absent for
unrated reviews) and the expanded review text. -/
structure Article where
  filmSlug : String
  rating : Option Int
  reviewText : String
deriving DecidableEq

/-- The external site as the service observes it: listing pages, film
pages, the reviewer list of a film, the review articles of a reviewer.
`none` models a page that fails to load (the service throws there);
reviewer and review pages swallow their own errors, so they are total and
a failed page is simply an empty list. -/
structure World where
  listPage : Nat → Option (List String)
  filmPage : String → Option FilmDoc
  reviewersOf : String → List String
  reviewsOf : String → List Article

/-- `isMovieScraped`: `movieRepository.count({ movieUid }) > 0`. -/
def isMovieScraped (movies : List Movie) (slug : String) : Bool :=
  movies.any (fun m => m.movieUid == slug)

/-- The mutable stores of the service plus the timestamp clock.
`extractedLog` is a ghost trace recording each slug for which
`scrapeMoviePage` is invoked (one entry per fetch-and-extract attempt);
it lets at-most-once-processing be stated. -/
structure CrawlState where
  frontier : List WLEntry
  movies : List Movie
  reviews : List ReviewRow
  clock : Nat
  extractedLog : List String
deriving DecidableEq

/-- Body of the per-article loop of `processReviewer` (service lines
677-723): save the review, then push the film slug unless a movie row for
it already exists; the clock advances at each enqueue. -/
def reviewArticleStep (username : String) (st : CrawlState) (a : Article) :
    CrawlState :=
  let st1 := { st with
    reviews := saveReview st.reviews
      ⟨username, a.filmSlug, a.rating, a.reviewText⟩ }
  if isMovieScraped st1.movies a.filmSlug then st1
  else { st1 with
    frontier := pushToWaitingList st1.frontier st1.clock a.filmSlug
    clock := st1.clock + 1 }

/-- `processReviewer` (service lines 662-730). -/
def processReviewer (w : World) (st : CrawlState) (username : String) :
    CrawlState :=
  (w.reviewsOf username).foldl (reviewArticleStep username) st

/-- The reviewer loop of `startScraping` (service lines 140-150): before
each reviewer the waiting-list size is re-read and the loop breaks the
moment it has reached `maxQueueSize`. -/
def reviewerLoop (w : World) (maxQueueSize : Nat) :
    CrawlState → List String → CrawlState
  | st, [] => st
  | st, reviewer :: rest =>
    if maxQueueSize ≤ getWaitingListSize st.frontier then st
    else reviewerLoop w maxQueueSize (processReviewer w st reviewer) rest

/-- The expansion step after a processed film (service lines 128-155):
review scraping is skipped entirely when the queue is already at
capacity; otherwise the reviewers are walked with the per-reviewer
capacity re-check. -/
def expandItem (w : World) (maxQueueSize : Nat) (st : CrawlState)
    (filmSlug : String) : CrawlState :=
  if getWaitingListSize st.frontier < maxQueueSize then
    reviewerLoop w maxQueueSize st (w.reviewersOf filmSlug)
  else st

/-- `scrapeFilmListPage` (service lines 170-200): a listing page that
fails to load rethrows (`none` propagates); otherwise every poster item
with a non-empty slug is pushed. -/
def scrapeFilmListPage (w : World) (pageNumber : Nat) (st : CrawlState) :
    Option CrawlState :=
  match w.listPage pageNumber with
  | none => none
  | some slugs =>
    some (slugs.foldl
      (fun st slug =>
        if slug != "" then
          { st with
            frontier := pushToWaitingList st.frontier st.clock slug
            clock := st.clock + 1 }
        else st)
      st)

/-- The loop-local state of `startScraping`: processed-films counter,
listing-page cursor and the in-memory batch. -/
structure RunState where
  cs : CrawlState
  newFilmsParsed : Nat
  currentPage : Nat
  filmBatch : List String
deriving DecidableEq

/-- Step 2 of a `startScraping` iteration (service lines 98-161): shift
the next slug off the batch; skip it when falsy or already stored;
otherwise fetch and extract the film page (a ghost log entry per
attempt); on success save the movie, bump the counter and expand; a
throw from the film page is caught and the run moves on. -/
def processHead (w : World) (maxQueueSize : Nat) (rs : RunState) : RunState :=
  match rs.filmBatch with
  | [] => rs
  | slug :: batchRest =>
    let rs1 := { rs with filmBatch := batchRest }
    if slug == "" || isMovieScraped rs1.cs.movies slug then rs1
    else
      let cs1 := { rs1.cs with
        extractedLog := rs1.cs.extractedLog ++ [slug] }
      match w.filmPage slug with
      | none => { rs1 with cs := cs1 }
      | some doc =>
        let cs2 := { cs1 with
          movies := saveMovie cs1.movies
            (movieOfScraped (scrapeMoviePage slug doc)) }
        let cs3 := expandItem w maxQueueSize cs2 slug
        { rs1 with cs := cs3, newFilmsParsed := rs1.newFilmsParsed + 1 }

/-- The refill tail of an iteration: pop a batch off the frontier into
the loop-local batch, then (unless nothing was popped, which re-enters
the loop) process the head slug. -/
def popAndProcess (w : World) (batchSize maxQueueSize : Nat)
    (rs1 : RunState) : RunState :=
  let popped := popBatchFromWaitingList rs1.cs.frontier batchSize
  let rs2 := { rs1 with
    cs := { rs1.cs with frontier := popped.2 }
    filmBatch := popped.1 }
  if rs2.filmBatch.isEmpty then rs2 else processHead w maxQueueSize rs2

/-- One iteration of the `while` loop of `startScraping` (service lines
73-162): refill the batch when it is empty (seeding from the next listing
page when the frontier is also empty — a listing-page failure propagates
out of the loop as `none`), then process the head of the batch; an
iteration whose refill pops nothing re-enters the loop (`continue`). -/
def startStep (w : World) (batchSize maxQueueSize : Nat) (rs : RunState) :
    Option RunState :=
  if rs.filmBatch.isEmpty then
    if getWaitingListSize rs.cs.frontier = 0 then
      (scrapeFilmListPage w rs.currentPage rs.cs).map
        (fun cs1 => popAndProcess w batchSize maxQueueSize
          { rs with cs := cs1, currentPage := rs.currentPage + 1 })
    else some (popAndProcess w batchSize maxQueueSize rs)
  else some (processHead w maxQueueSize rs)

/-- The `startScraping` driver loop; the fuel bounds the number of
iterations, spent fuel returns the state reached so far, and `none`
propagates a listing-page failure out of the run. -/
def startScraping (w : World) (targetNewFilms batchSize maxQueueSize : Nat) :
    Nat → RunState → Option RunState
  | 0, rs => some rs
  | fuel + 1, rs =>
    if rs.newFilmsParsed < targetNewFilms then
      match startStep w batchSize maxQueueSize rs with
      | none => none
      | some rs1 =>
        startScraping w targetNewFilms batchSize maxQueueSize fuel rs1
    else some rs

/-- One iteration of `processWaitingList` (service lines 736-781): pop a
single slug (the loop ends when the frontier is empty, signalled here by
`none`), skip it when a movie row exists, otherwise fetch and extract
(logged) and save; film-page throws are caught. -/
def drainStep (w : World) (st : CrawlState) : Option CrawlState :=
  match popFromWaitingList st.frontier with
  | (none, _) => none
  | (some slug, rest) =>
    let st1 := { st with frontier := rest }
    if isMovieScraped st1.movies slug then some st1
    else
      let st2 := { st1 with extractedLog := st1.extractedLog ++ [slug] }
      match w.filmPage slug with
      | none => some st2
      | some doc =>
        some { st2 with
          movies := saveMovie st2.movies
            (movieOfScraped (scrapeMoviePage slug doc)) }

/-- The drain-only loop `processWaitingList`, fuel-bounded. -/
def processWaitingList (w : World) : Nat → CrawlState → CrawlState
  | 0, st => st
  | fuel + 1, st =>
    match drainStep w st with
    | none => st
    | some st1 => processWaitingList w fuel st1

/-- A site with one reviewer per film whose page reviews two films, used
to exhibit the backpressure granularity. -/
def egWorld : World :=
  { listPage := fun _ => none
    filmPage := fun _ => none
    reviewersOf := fun _ => ["u"]
    reviewsOf := fun _ => [⟨"x", none, ""⟩, ⟨"y", none, ""⟩] }

/-- An empty initial crawl state. -/
def egState : CrawlState :=
  { frontier := [], movies := [], reviews := [], clock := 0,
    extractedLog := [] }

/-- C3 counterexample: with `maxQueueSize = 1` and an empty frontier, one
reviewer whose page carries two unseen films pushes both of them — after
the first push the frontier size is already at the threshold, yet the
second push still happens, because capacity is only re-checked between
reviewers, never between the pushes of one reviewer.  Were the claim
literally true (no push once `size ≥ maxFrontierSize`), the final size
could not exceed 1. -/
theorem claim_C3_counterexample :
    getWaitingListSize (expandItem egWorld 1 egState "f").frontier = 2 ∧
    ¬ getWaitingListSize (expandItem egWorld 1 egState "f").frontier ≤ 1 := by
  constructor
  · decide
  · decide

/-- C3 (amended): the capacity threshold gates expansion of an item and
is re-checked before each reviewer: whenever the frontier has reached
`maxQueueSize` at the item-level check or at one of the per-reviewer
checks, expansion of the current item stops there and pushes nothing
further, leaving already-queued ids untouched; pushes issued while a
single reviewer is being processed are not interrupted, so the size can
overshoot by at most the pushes of the reviewer in flight.  In
particular `maxQueueSize = 0` suppresses expansion entirely. -/
theorem claim_C3_backpressure_recheck (w : World) (maxQueueSize : Nat)
    (st : CrawlState) (filmSlug : String) (reviewers : List String) :
    (maxQueueSize ≤ getWaitingListSize st.frontier →
      expandItem w maxQueueSize st filmSlug = st ∧
      reviewerLoop w maxQueueSize st reviewers = st) ∧
    (∀ reviewer rest,
      reviewerLoop w maxQueueSize st (reviewer :: rest) =
        if maxQueueSize ≤ getWaitingListSize st.frontier then st
        else reviewerLoop w maxQueueSize (processReviewer w st reviewer) rest) ∧
    (maxQueueSize = 0 → expandItem w maxQueueSize st filmSlug = st) := by
  refine ⟨?_, ?_, ?_⟩
  · intro h
    constructor
    · unfold expandItem
      have : ¬ getWaitingListSize st.frontier < maxQueueSize := by omega
      simp [this]
    · cases reviewers with
      | nil => rfl
      | cons reviewer rest =>
        unfold reviewerLoop
        simp [h]
  · intro reviewer rest
    rfl
  · intro h
    subst h
    unfold expandItem
    simp

theorem claim_C3_witness :
    let st1 : CrawlState :=
      { frontier := [⟨"a", 0⟩], movies := [], reviews := [], clock := 1,
        extractedLog := [] }
    (1 ≤ getWaitingListSize st1.frontier) ∧
    expandItem egWorld 1 st1 "f" = st1 ∧
    reviewerLoop egWorld 1 st1 ["u", "v"] = st1 ∧
    expandItem egWorld 0 egState "f" = egState := by
  refine ⟨by decide, ?_, ?_, ?_⟩
  · exact ((claim_C3_backpressure_recheck egWorld 1 _ "f" ["u", "v"]).1
      (by decide)).1
  · exact ((claim_C3_backpressure_recheck egWorld 1 _ "f" ["u", "v"]).1
      (by decide)).2
  · exact (claim_C3_backpressure_recheck egWorld 0 egState "f" []).2.2 rfl

theorem frontierHasId_push_ne (wl : List WLEntry) (t : Nat) (s id : String)
    (hne : s ≠ id) :
    frontierHasId (pushToWaitingList wl t s) id = frontierHasId wl id := by
  unfold pushToWaitingList
  split
  · rfl
  · rw [frontierHasId_append_single]
    have hb : (s == id) = false := by simpa using hne
    simp [hb]

theorem count_append_single_ne (l : List String) (s id : String)
    (h : s ≠ id) : List.count id (l ++ [s]) = List.count id l := by
  have hb : (s == id) = false := by simpa using h
  simp [List.count_append, List.count_cons, hb]

theorem isMovieScraped_saveMovie (movies : List Movie) (m : Movie)
    (id : String) (h : isMovieScraped movies id = true) :
    isMovieScraped (saveMovie movies m) id = true := by
  unfold saveMovie
  split
  · unfold isMovieScraped at h ⊢
    rw [List.any_eq_true] at h ⊢
    obtain ⟨x, hx, hxid⟩ := h
    refine ⟨if x.movieUid == m.movieUid then m else x,
      List.mem_map.mpr ⟨x, hx, rfl⟩, ?_⟩
    cases hxm : x.movieUid == m.movieUid with
    | true =>
      have h1 : x.movieUid = m.movieUid := by simpa using hxm
      have h2 : x.movieUid = id := by simpa using hxid
      simp [hxm, ← h1, h2]
    | false => simpa [hxm] using hxid
  · unfold isMovieScraped at h ⊢
    simp [List.any_append, h]

theorem reviewArticleStep_movies (u : String) (st : CrawlState)
    (a : Article) : (reviewArticleStep u st a).movies = st.movies := by
  cases hg : isMovieScraped st.movies a.filmSlug <;>
    simp [reviewArticleStep, hg]

theorem reviewArticleStep_log (u : String) (st : CrawlState) (a : Article) :
    (reviewArticleStep u st a).extractedLog = st.extractedLog := by
  cases hg : isMovieScraped st.movies a.filmSlug <;>
    simp [reviewArticleStep, hg]

theorem reviewArticleStep_no_enqueue_scraped (u : String) (st : CrawlState)
    (a : Article) (id : String)
    (hscr : isMovieScraped st.movies id = true)
    (hfr : frontierHasId st.frontier id = false) :
    frontierHasId (reviewArticleStep u st a).frontier id = false := by
  unfold reviewArticleStep
  cases hg : isMovieScraped st.movies a.filmSlug with
  | true => simpa [hg] using hfr
  | false =>
    have hne : a.filmSlug ≠ id := by
      intro he
      rw [he] at hg
      rw [hg] at hscr
      exact absurd hscr (by simp)
    simp only [hg, Bool.false_eq_true, if_false]
    rw [frontierHasId_push_ne _ _ _ _ hne]
    exact hfr

theorem processArticles_movies (u : String) (arts : List Article)
    (st : CrawlState) :
    (arts.foldl (reviewArticleStep u) st).movies = st.movies := by
  induction arts generalizing st with
  | nil => rfl
  | cons a rest ih =>
    rw [List.foldl_cons, ih, reviewArticleStep_movies]

theorem processArticles_log (u : String) (arts : List Article)
    (st : CrawlState) :
    (arts.foldl (reviewArticleStep u) st).extractedLog = st.extractedLog := by
  induction arts generalizing st with
  | nil => rfl
  | cons a rest ih =>
    rw [List.foldl_cons, ih, reviewArticleStep_log]

theorem processArticles_no_enqueue_scraped (u : String) (arts : List Article)
    (st : CrawlState) (id : String)
    (hscr : isMovieScraped st.movies id = true)
    (hfr : frontierHasId st.frontier id = false) :
    frontierHasId (arts.foldl (reviewArticleStep u) st).frontier id = false := by
  induction arts generalizing st with
  | nil => exact hfr
  | cons a rest ih =>
    rw [List.foldl_cons]
    exact ih (reviewArticleStep u st a)
      (by rw [reviewArticleStep_movies]; exact hscr)
      (reviewArticleStep_no_enqueue_scraped u st a id hscr hfr)

theorem processReviewer_movies (w : World) (st : CrawlState) (u : String) :
    (processReviewer w st u).movies = st.movies :=
  processArticles_movies u (w.reviewsOf u) st

theorem processReviewer_log (w : World) (st : CrawlState) (u : String) :
    (processReviewer w st u).extractedLog = st.extractedLog :=
  processArticles_log u (w.reviewsOf u) st

theorem processReviewer_no_enqueue_scraped (w : World) (st : CrawlState)
    (u : String) (id : String)
    (hscr : isMovieScraped st.movies id = true)
    (hfr : frontierHasId st.frontier id = false) :
    frontierHasId (processReviewer w st u).frontier id = false :=
  processArticles_no_enqueue_scraped u (w.reviewsOf u) st id hscr hfr

theorem reviewerLoop_movies (w : World) (q : Nat) (revs : List String)
    (st : CrawlState) : (reviewerLoop w q st revs).movies = st.movies := by
  induction revs generalizing st with
  | nil => rfl
  | cons r rest ih =>
    unfold reviewerLoop
    split
    · rfl
    · rw [ih, processReviewer_movies]

theorem reviewerLoop_log (w : World) (q : Nat) (revs : List String)
    (st : CrawlState) :
    (reviewerLoop w q st revs).extractedLog = st.extractedLog := by
  induction revs generalizing st with
  | nil => rfl
  | cons r rest ih =>
    unfold reviewerLoop
    split
    · rfl
    · rw [ih, processReviewer_log]

theorem reviewerLoop_no_enqueue_scraped (w : World) (q : Nat)
    (revs : List String) (st : CrawlState) (id : String)
    (hscr : isMovieScraped st.movies id = true)
    (hfr : frontierHasId st.frontier id = false) :
    frontierHasId (reviewerLoop w q st revs).frontier id = false := by
  induction revs generalizing st with
  | nil => exact hfr
  | cons r rest ih =>
    unfold reviewerLoop
    split
    · exact hfr
    · exact ih (processReviewer w st r)
        (by rw [processReviewer_movies]; exact hscr)
        (processReviewer_no_enqueue_scraped w st r id hscr hfr)

theorem expandItem_movies (w : World) (q : Nat) (st : CrawlState)
    (s : String) : (expandItem w q st s).movies = st.movies := by
  unfold expandItem
  split
  · exact reviewerLoop_movies w q (w.reviewersOf s) st
  · rfl

theorem expandItem_log (w : World) (q : Nat) (st : CrawlState) (s : String) :
    (expandItem w q st s).extractedLog = st.extractedLog := by
  unfold expandItem
  split
  · exact reviewerLoop_log w q (w.reviewersOf s) st
  · rfl

theorem expandItem_no_enqueue_scraped (w : World) (q : Nat)
    (st : CrawlState) (s : String) (id : String)
    (hscr : isMovieScraped st.movies id = true)
    (hfr : frontierHasId st.frontier id = false) :
    frontierHasId (expandItem w q st s).frontier id = false := by
  unfold expandItem
  split
  · exact reviewerLoop_no_enqueue_scraped w q (w.reviewersOf s) st id hscr hfr
  · exact hfr

theorem listPush_foldl_movies (slugs : List String) (st : CrawlState) :
    (slugs.foldl
      (fun st slug =>
        if slug != "" then
          { st with
            frontier := pushToWaitingList st.frontier st.clock slug
            clock := st.clock + 1 }
        else st)
      st).movies = st.movies := by
  induction slugs generalizing st with
  | nil => rfl
  | cons s rest ih =>
    rw [List.foldl_cons, ih]
    split <;> rfl

theorem listPush_foldl_log (slugs : List String) (st : CrawlState) :
    (slugs.foldl
      (fun st slug =>
        if slug != "" then
          { st with
            frontier := pushToWaitingList st.frontier st.clock slug
            clock := st.clock + 1 }
        else st)
      st).extractedLog = st.extractedLog := by
  induction slugs generalizing st with
  | nil => rfl
  | cons s rest ih =>
    rw [List.foldl_cons, ih]
    split <;> rfl

theorem scrapeFilmListPage_some (w : World) (page : Nat) (st st' : CrawlState)
    (h : scrapeFilmListPage w page st = some st') :
    st'.movies = st.movies ∧ st'.extractedLog = st.extractedLog := by
  unfold scrapeFilmListPage at h
  cases hl : w.listPage page with
  | none => rw [hl] at h; exact absurd h (by simp)
  | some slugs =>
    rw [hl] at h
    injection h with h
    subst h
    exact ⟨listPush_foldl_movies slugs st, listPush_foldl_log slugs st⟩

theorem processHead_invariant (w : World) (q : Nat) (rs : RunState)
    (id : String) (hscr : isMovieScraped rs.cs.movies id = true) :
    isMovieScraped (processHead w q rs).cs.movies id = true ∧
    List.count id (processHead w q rs).cs.extractedLog =
      List.count id rs.cs.extractedLog := by
  unfold processHead
  cases hb : rs.filmBatch with
  | nil => exact ⟨hscr, rfl⟩
  | cons slug batchRest =>
    dsimp only
    cases hg : (slug == "" || isMovieScraped rs.cs.movies slug) with
    | true => simp [hscr]
    | false =>
      have hne : slug ≠ id := by
        intro he
        subst he
        rw [Bool.or_eq_false_iff] at hg
        rw [hg.2] at hscr
        exact absurd hscr (by simp)
      simp only [Bool.false_eq_true, if_false]
      cases hf : w.filmPage slug with
      | none =>
        exact ⟨hscr, count_append_single_ne _ _ _ hne⟩
      | some doc =>
        dsimp only
        refine ⟨?_, ?_⟩
        · rw [expandItem_movies]
          exact isMovieScraped_saveMovie _ _ _ hscr
        · rw [expandItem_log]
          exact count_append_single_ne _ _ _ hne

theorem popAndProcess_invariant (w : World) (b q : Nat) (rs1 : RunState)
    (id : String) (hscr1 : isMovieScraped rs1.cs.movies id = true) :
    isMovieScraped (popAndProcess w b q rs1).cs.movies id = true ∧
    List.count id (popAndProcess w b q rs1).cs.extractedLog =
      List.count id rs1.cs.extractedLog := by
  unfold popAndProcess
  dsimp only
  split
  · exact ⟨hscr1, rfl⟩
  · exact processHead_invariant w q _ id hscr1

theorem startStep_invariant (w : World) (b q : Nat) (rs rs' : RunState)
    (id : String) (h : startStep w b q rs = some rs')
    (hscr : isMovieScraped rs.cs.movies id = true) :
    isMovieScraped rs'.cs.movies id = true ∧
    List.count id rs'.cs.extractedLog =
      List.count id rs.cs.extractedLog := by
  unfold startStep at h
  by_cases hb : rs.filmBatch.isEmpty
  · simp only [hb, if_true] at h
    by_cases hq : getWaitingListSize rs.cs.frontier = 0
    · simp only [hq, if_true] at h
      cases hl : scrapeFilmListPage w rs.currentPage rs.cs with
      | none => rw [hl] at h; exact absurd h (by simp)
      | some cs1 =>
        rw [hl] at h
        simp only [Option.map_some'] at h
        injection h with h
        subst h
        obtain ⟨hm, hg⟩ := scrapeFilmListPage_some w rs.currentPage rs.cs cs1 hl
        have hscr1 : isMovieScraped
            ({ rs with cs := cs1, currentPage := rs.currentPage + 1 } :
              RunState).cs.movies id = true := by
          rw [show ({ rs with cs := cs1, currentPage := rs.currentPage + 1 } :
            RunState).cs.movies = cs1.movies from rfl, hm]
          exact hscr
        obtain ⟨h1, h2⟩ := popAndProcess_invariant w b q _ id hscr1
        refine ⟨h1, ?_⟩
        rw [h2]
        rw [show ({ rs with cs := cs1, currentPage := rs.currentPage + 1 } :
          RunState).cs.extractedLog = cs1.extractedLog from rfl, hg]
    · simp only [hq, if_false] at h
      injection h with h
      subst h
      exact popAndProcess_invariant w b q rs id hscr
  · simp only [hb, if_false] at h
    injection h with h
    subst h
    exact processHead_invariant w q rs id hscr

theorem startScraping_invariant (w : World) (t b q : Nat) (fuel : Nat)
    (rs rs' : RunState) (id : String)
    (hscr : isMovieScraped rs.cs.movies id = true)
    (h : startScraping w t b q fuel rs = some rs') :
    isMovieScraped rs'.cs.movies id = true ∧
    List.count id rs'.cs.extractedLog =
      List.count id rs.cs.extractedLog := by
  induction fuel generalizing rs with
  | zero =>
    unfold startScraping at h
    injection h with h
    subst h
    exact ⟨hscr, rfl⟩
  | succ fuel ih =>
    unfold startScraping at h
    by_cases hlt : rs.newFilmsParsed < t
    · simp only [hlt, if_true] at h
      cases hstep : startStep w b q rs with
      | none => rw [hstep] at h; exact absurd h (by simp)
      | some rs1 =>
        rw [hstep] at h
        obtain ⟨hscr1, hcnt1⟩ := startStep_invariant w b q rs rs1 id hstep hscr
        obtain ⟨hscr2, hcnt2⟩ := ih rs1 hscr1 h
        exact ⟨hscr2, by rw [hcnt2, hcnt1]⟩
    · simp only [hlt, if_false] at h
      injection h with h
      subst h
      exact ⟨hscr, rfl⟩

theorem drainStep_invariant (w : World) (st st' : CrawlState) (id : String)
    (h : drainStep w st = some st')
    (hscr : isMovieScraped st.movies id = true) :
    isMovieScraped st'.movies id = true ∧
    List.count id st'.extractedLog = List.count id st.extractedLog := by
  unfold drainStep at h
  cases hpop : popFromWaitingList st.frontier with
  | mk popped rest =>
    rw [hpop] at h
    cases popped with
    | none => exact absurd h (by simp)
    | some slug =>
      dsimp only at h
      cases hg : isMovieScraped st.movies slug with
      | true =>
        rw [hg] at h
        simp only [if_true] at h
        injection h with h
        subst h
        exact ⟨hscr, rfl⟩
      | false =>
        have hne : slug ≠ id := by
          intro he
          subst he
          rw [hg] at hscr
          exact absurd hscr (by simp)
        rw [hg] at h
        simp only [Bool.false_eq_true, if_false] at h
        cases hf : w.filmPage slug with
        | none =>
          rw [hf] at h
          injection h with h
          subst h
          exact ⟨hscr, count_append_single_ne _ _ _ hne⟩
        | some doc =>
          rw [hf] at h
          injection h with h
          subst h
          refine ⟨isMovieScraped_saveMovie _ _ _ hscr, ?_⟩
          exact count_append_single_ne _ _ _ hne

theorem processWaitingList_invariant (w : World) (fuel : Nat)
    (st : CrawlState) (id : String)
    (hscr : isMovieScraped st.movies id = true) :
    List.count id (processWaitingList w fuel st).extractedLog =
      List.count id st.extractedLog := by
  induction fuel generalizing st with
  | zero => rfl
  | succ fuel ih =>
    unfold processWaitingList
    cases hstep : drainStep w st with
    | none => rfl
    | some st1 =>
      obtain ⟨hscr1, hcnt1⟩ := drainStep_invariant w st st1 id hstep hscr
      rw [ih st1 hscr1, hcnt1]

/-- C4: once an id has a movie record, normal discovery never fetches or
extracts it again: the start loop and the drain loop skip every popped id
with an existing record (the extraction trace for that id never grows
while the loops run), and expansion never re-enqueues such an id; only
the explicit repair pass re-scrapes stored ids. -/
theorem claim_C4_at_most_once (w : World) (t b q fuel : Nat)
    (rs rs' : RunState) (st : CrawlState) (filmSlug id : String) :
    (isMovieScraped rs.cs.movies id = true →
      startScraping w t b q fuel rs = some rs' →
      List.count id rs'.cs.extractedLog =
        List.count id rs.cs.extractedLog) ∧
    (isMovieScraped st.movies id = true →
      List.count id (processWaitingList w fuel st).extractedLog =
        List.count id st.extractedLog) ∧
    (isMovieScraped st.movies id = true →
      frontierHasId st.frontier id = false →
      frontierHasId (expandItem w q st filmSlug).frontier id = false) := by
  refine ⟨?_, ?_, ?_⟩
  · intro hscr h
    exact (startScraping_invariant w t b q fuel rs rs' id hscr h).2
  · intro hscr
    exact processWaitingList_invariant w fuel st id hscr
  · intro hscr hfr
    exact expandItem_no_enqueue_scraped w q st filmSlug id hscr hfr

/-- A stored movie row used in the concrete runs below. -/
def egMovieRow : Movie :=
  ⟨"m", "N", some 2019, some 1, some 1, "S", "G", "T", "D", "C"⟩

/-- A crawl state that already stores `egMovieRow` and queues `x`. -/
def egStoreState : CrawlState :=
  { frontier := [⟨"x", 0⟩], movies := [egMovieRow], reviews := [],
    clock := 1, extractedLog := [] }

/-- A run state whose batch holds the already-stored id `m`. -/
def egRunSkip : RunState :=
  { cs := egStoreState, newFilmsParsed := 0, currentPage := 1,
    filmBatch := ["m"] }

/-- `egRunSkip` after the skip iteration: the batch is consumed, nothing
else moves. -/
def egRunSkipDone : RunState :=
  { cs := egStoreState, newFilmsParsed := 0, currentPage := 1,
    filmBatch := [] }

theorem claim_C4_witness :
    isMovieScraped egStoreState.movies "m" = true ∧
    startScraping egWorld 1 5 10 1 egRunSkip = some egRunSkipDone ∧
    List.count "m" egRunSkipDone.cs.extractedLog =
      List.count "m" egRunSkip.cs.extractedLog ∧
    List.count "m" (processWaitingList egWorld 3 egStoreState).extractedLog =
      List.count "m" egStoreState.extractedLog ∧
    frontierHasId (expandItem egWorld 10 egStoreState "f").frontier "m" =
      false := by
  refine ⟨by decide, by decide, ?_, ?_, ?_⟩
  · exact (claim_C4_at_most_once egWorld 1 5 10 1 egRunSkip egRunSkipDone
      egStoreState "f" "m").1 (by decide) (by decide)
  · exact (claim_C4_at_most_once egWorld 1 5 10 3 egRunSkip egRunSkipDone
      egStoreState "f" "m").2.1 (by decide)
  · exact (claim_C4_at_most_once egWorld 1 5 10 3 egRunSkip egRunSkipDone
      egStoreState "f" "m").2.2 (by decide) (by decide)

/-- C8: a listing-page load failure propagates out of the crawl loop and
halts the run, while a film-page failure is caught: the popped id is
abandoned without being re-queued (frontier unchanged), the processed
counter does not move, and the loop goes on with the rest of the
batch. -/
theorem claim_C8_failure_paths (w : World) (t b q fuel : Nat)
    (rs : RunState) (slug : String) (batchRest : List String) :
    (rs.filmBatch = [] → rs.cs.frontier = [] →
      w.listPage rs.currentPage = none →
      rs.newFilmsParsed < t →
      startScraping w t b q (fuel + 1) rs = none) ∧
    (rs.filmBatch = slug :: batchRest → slug ≠ "" →
      isMovieScraped rs.cs.movies slug = false →
      w.filmPage slug = none →
      ∃ rs', startStep w b q rs = some rs' ∧
        rs'.newFilmsParsed = rs.newFilmsParsed ∧
        rs'.filmBatch = batchRest ∧
        rs'.cs.frontier = rs.cs.frontier ∧
        rs'.cs.movies = rs.cs.movies ∧
        rs'.cs.extractedLog = rs.cs.extractedLog ++ [slug]) := by
  constructor
  · intro hb hfr hlp hlt
    unfold startScraping
    simp only [hlt, if_true]
    have hstep : startStep w b q rs = none := by
      unfold startStep
      have hbe : rs.filmBatch.isEmpty = true := by rw [hb]; rfl
      rw [hbe]
      simp only [if_true]
      have hsz : getWaitingListSize rs.cs.frontier = 0 := by
        rw [hfr]; rfl
      rw [hsz]
      simp only [if_pos rfl]
      unfold scrapeFilmListPage
      rw [hlp]
      simp
    rw [hstep]
  · intro hb hne hscr hf
    refine ⟨{ rs with
      filmBatch := batchRest
      cs := { rs.cs with
        extractedLog := rs.cs.extractedLog ++ [slug] } },
      ?_, rfl, rfl, rfl, rfl, rfl⟩
    unfold startStep
    have hbe : rs.filmBatch.isEmpty = false := by rw [hb]; rfl
    rw [hbe]
    simp only [Bool.false_eq_true, if_false]
    unfold processHead
    rw [hb]
    dsimp only
    have hgg : (slug == "" || isMovieScraped rs.cs.movies slug) = false := by
      have h1 : (slug == "") = false := by simpa using hne
      rw [h1, hscr]
      rfl
    rw [hgg]
    simp only [Bool.false_eq_true, if_false]
    rw [hf]

theorem claim_C8_witness :
    let egRunEmpty : RunState :=
      { cs := egState, newFilmsParsed := 0, currentPage := 1,
        filmBatch := [] }
    let egRunBatch : RunState :=
      { cs := egState, newFilmsParsed := 0, currentPage := 1,
        filmBatch := ["z"] }
    startScraping egWorld 1 5 10 1 egRunEmpty = none ∧
    (∃ rs', startStep egWorld 5 10 egRunBatch = some rs' ∧
      rs'.newFilmsParsed = egRunBatch.newFilmsParsed ∧
      rs'.filmBatch = [] ∧
      rs'.cs.frontier = egRunBatch.cs.frontier ∧
      rs'.cs.movies = egRunBatch.cs.movies ∧
      rs'.cs.extractedLog = egRunBatch.cs.extractedLog ++ ["z"]) := by
  refine ⟨?_, ?_⟩
  · exact (claim_C8_failure_paths egWorld 1 5 10 0
      { cs := egState, newFilmsParsed := 0, currentPage := 1,
        filmBatch := [] } "z" []).1 rfl rfl rfl (by decide)
  · exact (claim_C8_failure_paths egWorld 1 5 10 0
      { cs := egState, newFilmsParsed := 0, currentPage := 1,
        filmBatch := ["z"] } "z" []).2 rfl (by decide) (by decide) rfl
